import Mathlib

set_option maxRecDepth 100000

/-!
Shallow embedding of `src/main.js` of the parse-issue-bot repository.

The module is a GitHub action: on an issue / pull-request event it classifies
the submission body against issue templates, validates required headlines and
checkboxes, and posts or updates a single bot status comment.  The platform
(octokit) is modelled as an explicit state of comment lists; every network
write is recorded as a `WriteOp`.
-/

namespace ParseIssueBot

/-- The item types (`const ItemType = {pr: 'pr', issue: 'issue'}`). -/
inductive ItemType
  | pr
  | issue
  deriving DecidableEq

/-- The item issue types (`const ItemIssueType = {bug: 'bug', feature: 'feature'}`). -/
inductive ItemIssueType
  | bug
  | feature
  deriving DecidableEq, BEq

/-- JS `text.includes(pat)`: `pat` occurs in `t` as a contiguous substring. -/
def strContains (t pat : String) : Bool :=
  t.data.tails.any fun suf => pat.data.isPrefixOf suf

/-- The strings matched by the regex fragment `- \[ ?[xX] ?\]`: a dash, a space,
an opening bracket, an optional space, the mark in either case, an optional
space, a closing bracket. -/
def checkboxMarks : List String :=
  (["", " "].map fun s1 =>
    (["x", "X"].map fun c =>
      (["", " "].map fun s2 => "- [" ++ s1 ++ c ++ s2 ++ "]"))).flatten.flatten

/-- The shapes of regular expressions occurring in the template table.  The
headline patterns contain no regex metacharacters, so they match exactly where
the literal string occurs; the checkbox patterns are `- \[ ?[xX] ?\]` followed
by a literal tail. -/
inductive PatternRegex
  | lit (s : String)
  | checkboxDone (rest : String)
  deriving DecidableEq

/-- Semantics of `new RegExp(pattern.regex).test(text)` for the two pattern
shapes used by the module. -/
def regexTest : PatternRegex → String → Bool
  | .lit s, text => strContains text s
  | .checkboxDone rest, text => checkboxMarks.any fun m => strContains text (m ++ rest)

/-- Per-subtype template properties (the `template` constant). -/
structure TemplateSpec where
  headlines : List String
  checkboxes : List PatternRegex
  deriving DecidableEq

/-- `template.bug`. -/
def templateBug : TemplateSpec :=
  ⟨["### New Issue Checklist",
    "### Issue Description",
    "### Steps to reproduce",
    "### Actual Outcome",
    "### Expected Outcome",
    "### Environment"],
   [.checkboxDone " I am not disclosing a",
    .checkboxDone " I am not just asking a",
    .checkboxDone " I have searched through",
    .checkboxDone " I can reproduce the issue"]⟩

/-- `template.feature`. -/
def templateFeature : TemplateSpec :=
  ⟨["### New Feature / Enhancement Checklist",
    "### Current Limitation",
    "### Feature / Enhancement Description",
    "### Example Use Case",
    "### Alternatives / Workarounds"],
   [.checkboxDone " I am not disclosing a",
    .checkboxDone " I am not just asking a",
    .checkboxDone " I have searched through"]⟩

/-- `template.common.placeholder`. -/
def templateCommonPlaceholder : String := "FILL_THIS_OUT"

/-- `template[issueType]`. -/
def templateOf : ItemIssueType → TemplateSpec
  | .bug => templateBug
  | .feature => templateFeature

/-- The bot comment tag id (`messageIdMetaTag`). -/
def messageIdMetaTag : String := "<!-- parse-issue-bot-meta-tag-id -->"

/-- `getItemIssueType()`: classify the body by substring search for the first
headline of each template, bug before feature, `none` when neither occurs. -/
def getItemIssueType (itemBody : String) : Option ItemIssueType :=
  if strContains itemBody templateBug.headlines[0]! then some .bug
  else if strContains itemBody templateFeature.headlines[0]! then some .feature
  else none

/-- An element of the `patterns` arrays fed to `validatePattern` (an object
with a single `regex` property). -/
structure PatternEntry where
  regex : PatternRegex
  deriving DecidableEq

/-- A `validatePattern` result entry: the pattern object extended with its
`ok` flag. -/
structure Validation where
  regex : PatternRegex
  ok : Bool
  deriving DecidableEq

/-- `validatePattern(patterns, text)`: test every pattern independently against
the text. -/
def validatePattern (patterns : List PatternEntry) (text : String) : List Validation :=
  patterns.map fun p => ⟨p.regex, regexTest p.regex text⟩

/-- The flags destructured by `composeMessage({requireCheckboxes,
requireTemplate, suggestPr, excitedFeature})`. -/
structure MessageFlags where
  requireCheckboxes : Bool
  requireTemplate : Bool
  suggestPr : Bool
  excitedFeature : Bool
  deriving DecidableEq

/-- `fillPlaceholders(message, payload)`: the source evaluates the message as a
JS template literal with the payload fields in scope.  Every message composed
by this module contains no `${` substitution token, no backslash and no
backtick, so the evaluation returns the message unchanged; on that domain the
function is the identity. -/
def fillPlaceholders (message : String) : String := message

/-- `composeMessage(flags)`: the bot comment body.  The meta tag comes first,
then the greeting, the conditional notice paragraphs, and the beta note. -/
def composeMessage (itemType : ItemType) (flags : MessageFlags) : String :=
  let itemName := if itemType = ItemType.issue then "issue" else "pull request"
  let message := messageIdMetaTag
  let message := message ++ "\n## 🤖 Parsy\n### Thanks for opening this " ++ itemName ++ "!"
  let message := if flags.requireTemplate then
      message ++ "\n\n- ❌ Please edit your post and use the provided template when creating a new issue. This helps everyone to understand the issue better and asks for essential information to quicker investigate the issue."
    else message
  let message := if flags.requireCheckboxes then
      message ++ "\n\n- ❌ Please make sure to check all required checkboxes at the top, otherwise your issue will be closed."
        ++ "\n\n- ⚠️ Remember that security vulnerability must only be reported confidentially, see our [Security Policy](https://github.com/parse-community/parse-server/blob/master/SECURITY.md). If you are not sure whether the issue is a security vulnerability, the safest way is to treat it as such and submit it confidentially to us for evaluation."
    else message
  let message := if flags.suggestPr then
      message ++ "\n\n- 🚀 You can help us to fix this issue faster by opening a Pull Request with a failing test. See our [Contribution Guide](https://github.com/parse-community/parse-server/blob/master/CONTRIBUTING.md) for how to make a Pull Request, or read our [New Contributor's Guide](https://blog.parseplatform.org/learn/tutorial/community/nodejs/2021/02/14/How-to-start-contributing-to-Parse-Server.html) if this is your first time contributing. In any case, feel free to ask if you have any questions."
    else message
  let message := if flags.excitedFeature then
      message ++ "\n\n- 🎉 We are excited about your ideas for improvement!"
    else message
  let message := message ++ "\n\n*I'm in beta, so forgive me if I'm still making mistakes.*"
  fillPlaceholders message

/-- A platform comment (the fields of an octokit comment the module reads). -/
structure Comment where
  id : Nat
  body : String
  deriving DecidableEq

/-- The platform collaborator's state for the one submission the invocation
targets: its issue comments and its pull-request reviews, each in ascending
creation order (the order `listComments` pagination yields), and the next id
the platform will assign.  The owner / repo / number coordinates are constant
through a run and are omitted. -/
structure PlatformState where
  comments : List Comment
  reviews : List Comment
  nextId : Nat
  deriving DecidableEq

/-- A network write against the platform, one per octokit write call. -/
inductive WriteOp
  | createIssueComment (body : String)
  | createReview (body : String)
  | updateIssueComment (id : Nat) (body : String)
  | updateReview (id : Nat) (body : String)
  deriving DecidableEq

/-- The body a write op carries. -/
def writeBody : WriteOp → String
  | .createIssueComment b => b
  | .createReview b => b
  | .updateIssueComment _ b => b
  | .updateReview _ b => b

/-- `findComment(text)`: walk the submission's issue comments in ascending
paginated order and return the first whose body includes `text`. -/
def findComment (st : PlatformState) (text : String) : Option Comment :=
  st.comments.find? fun comment => strContains comment.body text

/-- `createComment(message)`: a new comment of the kind matching the item
type — an issue comment, or a pull-request review. -/
def createComment (itemType : ItemType) (message : String) (st : PlatformState) :
    PlatformState × List WriteOp :=
  match itemType with
  | .issue =>
    (⟨st.comments ++ [⟨st.nextId, message⟩], st.reviews, st.nextId + 1⟩,
     [.createIssueComment message])
  | .pr =>
    (⟨st.comments, st.reviews ++ [⟨st.nextId, message⟩], st.nextId + 1⟩,
     [.createReview message])

/-- `updateComment(id, message)`: overwrite the body of the comment (or
review) with the given id in place. -/
def updateComment (itemType : ItemType) (id : Nat) (message : String)
    (st : PlatformState) : PlatformState × List WriteOp :=
  match itemType with
  | .issue =>
    (⟨st.comments.map fun c => if c.id = id then ⟨c.id, message⟩ else c,
      st.reviews, st.nextId⟩,
     [.updateIssueComment id message])
  | .pr =>
    (⟨st.comments,
      st.reviews.map fun c => if c.id = id then ⟨c.id, message⟩ else c,
      st.nextId⟩,
     [.updateReview id message])

/-- `postComment(message)`: look for an existing bot comment (any comment
containing `'parse-issue-bot'`); update it when found, create a new comment
otherwise. -/
def postComment (itemType : ItemType) (message : String) (st : PlatformState) :
    PlatformState × List WriteOp :=
  match findComment st "parse-issue-bot" with
  | some comment => updateComment itemType comment.id message st
  | none => createComment itemType message st

/-- The outcome of one validation step: whether it passed, plus the platform
state and the writes it performed. -/
structure StepResult where
  passed : Bool
  state : PlatformState
  writes : List WriteOp
  deriving DecidableEq

/-- `validateIssueTemplate()`: classify the body; when the type is
undetermined, or a required headline pattern fails, post the
require-template message and fail the step. -/
def validateIssueTemplate (itemBody : String) (st : PlatformState) : StepResult :=
  let message := composeMessage .issue ⟨false, true, false, false⟩
  match getItemIssueType itemBody with
  | none =>
    let pc := postComment .issue message st
    ⟨false, pc.1, pc.2⟩
  | some issueType =>
    let patterns := (templateOf issueType).headlines.map fun h => ⟨PatternRegex.lit h⟩
    if 0 < ((validatePattern patterns itemBody).filter fun v => !v.ok).length then
      let pc := postComment .issue message st
      ⟨false, pc.1, pc.2⟩
    else ⟨true, st, []⟩

/-- `validateIssueCheckboxes()`: when the type is undetermined post the
require-template message; when a required checkbox pattern fails post the
require-checkboxes message; otherwise pass. -/
def validateIssueCheckboxes (itemBody : String) (st : PlatformState) : StepResult :=
  match getItemIssueType itemBody with
  | none =>
    let pc := postComment .issue (composeMessage .issue ⟨false, true, false, false⟩) st
    ⟨false, pc.1, pc.2⟩
  | some issueType =>
    let message := composeMessage .issue ⟨true, false, false, false⟩
    let patterns := (templateOf issueType).checkboxes.map fun c => ⟨c⟩
    if 0 < ((validatePattern patterns itemBody).filter fun v => !v.ok).length then
      let pc := postComment .issue message st
      ⟨false, pc.1, pc.2⟩
    else ⟨true, st, []⟩

/-- The `issue` or `pull_request` payload member, with the fields the module
reads. -/
structure ItemPayload where
  body : Option String
  deriving DecidableEq

/-- The action trigger payload, with the fields the module reads; `sender`
records whether a (truthy) sender is present. -/
structure Payload where
  action : String
  issue : Option ItemPayload
  pull_request : Option ItemPayload
  sender : Bool
  deriving DecidableEq

/-- JS truthiness of `x && x.body`: the body when the member is present and
its body is a nonempty string. -/
def truthyBody : Option ItemPayload → Option String
  | some i =>
    match i.body with
    | some b => if b = "" then none else some b
    | none => none
  | none => none

/-- `getItemBody(payload)`: the issue body when truthy, else the pull-request
body when truthy, else `undefined`. -/
def getItemBody (p : Payload) : Option String :=
  match truthyBody p.issue with
  | some b => some b
  | none => truthyBody p.pull_request

/-- The conditional chain assigning `itemType`: issue when `payload.issue` is
defined, else pr when `payload.pull_request` is defined, else undefined. -/
def itemTypeOf (p : Payload) : Option ItemType :=
  if p.issue.isSome then some .issue
  else if p.pull_request.isSome then some .pr
  else none

/-- The three ways `validateEvent` can leave `main`: skip (irrelevant
trigger, returns false before any write), a thrown error (no sender), or
success with the item type and the body defaulted to the empty string. -/
inductive EventCheck
  | skip
  | thrown (msg : String)
  | ok (itemType : ItemType) (itemBody : String)
  deriving DecidableEq

/-- `validateEvent(context)`: require a relevant action, then an issue or
pull-request payload, then a sender; set the item type and body. -/
def validateEvent (p : Payload) : EventCheck :=
  if !(["opened", "reopened", "edited"].contains p.action) then .skip
  else
    match itemTypeOf p with
    | none => .skip
    | some t =>
      if !p.sender then .thrown "No sender provided by GitHub."
      else .ok t ((getItemBody p).getD "")

/-- How an invocation ended: normal completion, or `core.setFailed` with the
caught error message. -/
inductive RunOutcome
  | success
  | failure (msg : String)
  deriving DecidableEq

/-- One whole invocation: its outcome, the platform writes it performed in
order, and the final platform state. -/
structure RunResult where
  outcome : RunOutcome
  writes : List WriteOp
  state : PlatformState
  deriving DecidableEq

/-- The body of `main`'s `if (itemType == ItemType.issue)` block: template
check, then checkbox check, then the success comment with the
subtype-dependent extras. -/
def runIssue (itemBody : String) (st : PlatformState) : RunResult :=
  let r1 := validateIssueTemplate itemBody st
  if !r1.passed then ⟨.success, r1.writes, r1.state⟩
  else
    let r2 := validateIssueCheckboxes itemBody r1.state
    if !r2.passed then ⟨.success, r1.writes ++ r2.writes, r2.state⟩
    else
      let itemIssueType := getItemIssueType itemBody
      let message := composeMessage .issue
        ⟨false, false, itemIssueType == some .bug, itemIssueType == some .feature⟩
      let pc := postComment .issue message r2.state
      ⟨.success, r1.writes ++ r2.writes ++ pc.2, pc.1⟩

/-- `main()`: validate the event and, for issues, run the checks; for pull
requests the validation block is skipped entirely.  A thrown error is caught
and reported through `core.setFailed`. -/
def main (p : Payload) (st : PlatformState) : RunResult :=
  match validateEvent p with
  | .skip => ⟨.success, [], st⟩
  | .thrown msg => ⟨.failure msg, [], st⟩
  | .ok itemType itemBody =>
    match itemType with
    | .issue => runIssue itemBody st
    | .pr => ⟨.success, [], st⟩

/-- The platform state of a fresh submission: no comments yet. -/
def emptyState : PlatformState := ⟨[], [], 0⟩

/-- A bug-template body with all six headlines present but every checkbox
left unchecked. -/
def uncheckedBugBody : String :=
  "### New Issue Checklist\n- [ ] I am not disclosing a vulnerability\n- [ ] I am not just asking a question\n- [ ] I have searched through existing issues\n- [ ] I can reproduce the issue\n### Issue Description\nd\n### Steps to reproduce\ns\n### Actual Outcome\na\n### Expected Outcome\nb\n### Environment\ne"

/-- A bug-template body with all six headlines, all four checkboxes checked,
and the shared placeholder token left in a field. -/
def filledBugBodyWithPlaceholder : String :=
  "### New Issue Checklist\n- [x] I am not disclosing a vulnerability\n- [x] I am not just asking a question\n- [x] I have searched through existing issues\n- [x] I can reproduce the issue\n### Issue Description\nFILL_THIS_OUT\n### Steps to reproduce\ns\n### Actual Outcome\na\n### Expected Outcome\nb\n### Environment\ne"

/-- Modelled from the spec for comparison only (the Template Classifier
contract: "return the subtype whose first required headline pattern matches
the body's leading text"): a classifier that requires the first headline at
the very start of the body.  `getItemIssueType`, translated from the source,
searches the whole body instead. -/
def specLeadingClassifier (itemBody : String) : Option ItemIssueType :=
  if templateBug.headlines[0]!.data.isPrefixOf itemBody.data then some .bug
  else if templateFeature.headlines[0]!.data.isPrefixOf itemBody.data then some .feature
  else none

/-! ### Helper lemmas -/

/-- Every composed message contains the substring `postComment` searches for:
the meta tag, which opens the message, contains `'parse-issue-bot'`. -/
theorem composeMessage_contains_marker (t : ItemType) (flags : MessageFlags) :
    strContains (composeMessage t flags) "parse-issue-bot" = true := by
  obtain ⟨cb, tp, sp, ef⟩ := flags
  cases t <;> cases cb <;> cases tp <;> cases sp <;> cases ef <;> decide

/-- The single write of a `postComment` call carries the posted message. -/
theorem postComment_writes (t : ItemType) (msg : String) (st : PlatformState) :
    ((postComment t msg st).2).map writeBody = [msg] := by
  unfold postComment
  cases hfind : findComment st "parse-issue-bot" <;>
    cases t <;> simp [updateComment, createComment, writeBody]

/-- A `validatePattern` run has no failing entry iff every pattern tests
positively. -/
theorem validatePattern_filter_eq_nil_iff (ps : List PatternEntry) (text : String) :
    ((validatePattern ps text).filter fun v => !v.ok) = [] ↔
      ∀ p ∈ ps, regexTest p.regex text = true := by
  unfold validatePattern
  rw [List.filter_map, List.map_eq_nil_iff, List.filter_eq_nil_iff]
  simp

/-- A `validatePattern` run has a failing entry iff some pattern tests
negatively. -/
theorem validatePattern_filter_pos_iff (ps : List PatternEntry) (text : String) :
    (0 < ((validatePattern ps text).filter fun v => !v.ok).length) ↔
      ∃ p ∈ ps, regexTest p.regex text = false := by
  rw [List.length_pos, Ne, validatePattern_filter_eq_nil_iff]
  push_neg
  simp

/-- On a relevant issue event with a sender, `validateEvent` succeeds with the
issue item type and the defaulted body. -/
theorem validateEvent_issue (p : Payload)
    (ha : (["opened", "reopened", "edited"].contains p.action) = true)
    (hi : p.issue.isSome = true) (hs : p.sender = true) :
    validateEvent p = .ok .issue ((getItemBody p).getD "") := by
  unfold validateEvent itemTypeOf
  rw [ha]
  simp [hi, hs]

/-- On a relevant issue event with a sender, `main` runs the issue validation
chain on the defaulted body. -/
theorem main_eq_runIssue (p : Payload) (st : PlatformState)
    (ha : (["opened", "reopened", "edited"].contains p.action) = true)
    (hi : p.issue.isSome = true) (hs : p.sender = true) :
    main p st = runIssue ((getItemBody p).getD "") st := by
  unfold main
  rw [validateEvent_issue p ha hi hs]

/-! ### Claim theorems -/

/-- C4: every `postComment` call performs exactly one platform write — an
update of the first comment (in ascending paginated order) containing the
identity-marker substring when one exists, and a create otherwise — never both
and never zero.  The search order is part of `findComment`'s definition:
`find?` returns the first match of the ascending comment list. -/
theorem postComment_single_write (t : ItemType) (msg : String) (st : PlatformState) :
    findComment st "parse-issue-bot" =
      (st.comments.find? fun c => strContains c.body "parse-issue-bot") ∧
    (postComment t msg st).2.length = 1 ∧
    (postComment t msg st).2 =
      [match findComment st "parse-issue-bot" with
       | some c =>
         match t with
         | .issue => WriteOp.updateIssueComment c.id msg
         | .pr => WriteOp.updateReview c.id msg
       | none =>
         match t with
         | .issue => WriteOp.createIssueComment msg
         | .pr => WriteOp.createReview msg] := by
  refine ⟨rfl, ?_⟩
  unfold postComment
  cases hfind : findComment st "parse-issue-bot" <;> cases t <;>
    simp [updateComment, createComment]

/-- C3: calling `postComment` twice in succession with the same composed body
on a submission that has no bot comment yet leaves exactly one comment carrying
the identity marker: the first call creates it and the second call finds it by
the marker substring and updates it in place. -/
theorem postComment_idempotent (flags : MessageFlags) (st : PlatformState)
    (hbot : ∀ c ∈ st.comments, strContains c.body "parse-issue-bot" = false)
    (hid : ∀ c ∈ st.comments, c.id < st.nextId) :
    (((postComment .issue (composeMessage .issue flags)
        (postComment .issue (composeMessage .issue flags) st).1).1).comments.filter
      fun c => strContains c.body "parse-issue-bot").length = 1 ∧
    (postComment .issue (composeMessage .issue flags)
        (postComment .issue (composeMessage .issue flags) st).1).2 =
      [WriteOp.updateIssueComment st.nextId (composeMessage .issue flags)] := by
  have hmsg : strContains (composeMessage .issue flags) "parse-issue-bot" = true :=
    composeMessage_contains_marker _ _
  have hfind1 : (st.comments.find? fun c => strContains c.body "parse-issue-bot") = none :=
    List.find?_eq_none.mpr fun c hc => by simp [hbot c hc]
  have h1 : postComment .issue (composeMessage .issue flags) st =
      (⟨st.comments ++ [⟨st.nextId, composeMessage .issue flags⟩], st.reviews, st.nextId + 1⟩,
       [.createIssueComment (composeMessage .issue flags)]) := by
    unfold postComment findComment
    rw [hfind1]
    rfl
  rw [h1]
  have hfind2 : (((st.comments ++ [(⟨st.nextId, composeMessage .issue flags⟩ : Comment)]).find?
      fun c => strContains c.body "parse-issue-bot")) =
      some (⟨st.nextId, composeMessage .issue flags⟩ : Comment) := by
    rw [List.find?_append, hfind1]
    simp [List.find?, hmsg]
  have h2 : postComment .issue (composeMessage .issue flags)
      ⟨st.comments ++ [(⟨st.nextId, composeMessage .issue flags⟩ : Comment)], st.reviews,
        st.nextId + 1⟩ =
      (⟨(st.comments ++ [(⟨st.nextId, composeMessage .issue flags⟩ : Comment)]).map
          (fun c => if c.id = st.nextId then (⟨c.id, composeMessage .issue flags⟩ : Comment) else c),
        st.reviews, st.nextId + 1⟩,
       [.updateIssueComment st.nextId (composeMessage .issue flags)]) := by
    unfold postComment findComment
    rw [hfind2]
    rfl
  rw [h2]
  refine ⟨?_, rfl⟩
  have hmapc : st.comments.map
      (fun c => if c.id = st.nextId then (⟨c.id, composeMessage .issue flags⟩ : Comment) else c) =
      st.comments := by
    conv_rhs => rw [← List.map_id st.comments]
    exact List.map_congr_left fun c hc => by simp [Nat.ne_of_lt (hid c hc)]
  have hfilc : (st.comments.filter fun c => strContains c.body "parse-issue-bot") = [] :=
    List.filter_eq_nil_iff.mpr fun c hc => by simp [hbot c hc]
  simp only [List.map_append, hmapc, List.map_cons, List.map_nil, if_pos rfl,
    List.filter_append, hfilc]
  simp [hmsg]

/-- C3 witness: the idempotence theorem instantiated on a fresh submission and
the success-variant message. -/
theorem postComment_idempotent_witness :
    (((postComment .issue (composeMessage .issue ⟨false, false, false, false⟩)
        (postComment .issue (composeMessage .issue ⟨false, false, false, false⟩) emptyState).1).1).comments.filter
      fun c => strContains c.body "parse-issue-bot").length = 1 ∧
    (postComment .issue (composeMessage .issue ⟨false, false, false, false⟩)
        (postComment .issue (composeMessage .issue ⟨false, false, false, false⟩) emptyState).1).2 =
      [WriteOp.updateIssueComment emptyState.nextId (composeMessage .issue ⟨false, false, false, false⟩)] :=
  postComment_idempotent ⟨false, false, false, false⟩ emptyState
    (by simp [emptyState]) (by simp [emptyState])

/-- C9: an event whose action is not opened / reopened / edited, or that
carries neither an issue nor a pull request, is skipped: the invocation
performs zero platform writes and completes successfully. -/
theorem irrelevant_trigger_no_writes (p : Payload) (st : PlatformState)
    (h : (["opened", "reopened", "edited"].contains p.action) = false ∨
      (p.issue = none ∧ p.pull_request = none)) :
    main p st = ⟨.success, [], st⟩ := by
  unfold main validateEvent itemTypeOf
  rcases h with h | ⟨h1, h2⟩
  · rw [h]
    rfl
  · cases hc : (["opened", "reopened", "edited"].contains p.action)
    · rfl
    · simp [h1, h2]

/-- C9 witness: a `labeled` action performs zero writes and exits
successfully. -/
theorem irrelevant_trigger_no_writes_witness :
    main ⟨"labeled", none, none, true⟩ emptyState = ⟨.success, [], emptyState⟩ :=
  irrelevant_trigger_no_writes ⟨"labeled", none, none, true⟩ emptyState (by left; decide)

/-- When classification fails, the template step posts the require-template
message and fails. -/
theorem validateIssueTemplate_undetermined (body : String) (st : PlatformState)
    (h : getItemIssueType body = none) :
    validateIssueTemplate body st =
      ⟨false,
       (postComment .issue (composeMessage .issue ⟨false, true, false, false⟩) st).1,
       (postComment .issue (composeMessage .issue ⟨false, true, false, false⟩) st).2⟩ := by
  simp only [validateIssueTemplate, h]

/-- When classification succeeds but a required headline pattern fails, the
template step posts the require-template message and fails. -/
theorem validateIssueTemplate_headline_missing (body : String) (st : PlatformState)
    (it : ItemIssueType) (hl : String) (hclass : getItemIssueType body = some it)
    (hmem : hl ∈ (templateOf it).headlines) (hfail : strContains body hl = false) :
    validateIssueTemplate body st =
      ⟨false,
       (postComment .issue (composeMessage .issue ⟨false, true, false, false⟩) st).1,
       (postComment .issue (composeMessage .issue ⟨false, true, false, false⟩) st).2⟩ := by
  have hpos : 0 < (((validatePattern
      ((templateOf it).headlines.map fun h => ⟨PatternRegex.lit h⟩) body)).filter
        fun v => !v.ok).length :=
    (validatePattern_filter_pos_iff _ _).mpr
      ⟨⟨.lit hl⟩, List.mem_map.mpr ⟨hl, hmem, rfl⟩, by simp [regexTest, hfail]⟩
  simp only [validateIssueTemplate, hclass, hpos, if_true]

/-- When every required headline is present, the template step passes without
writing. -/
theorem validateIssueTemplate_passes (body : String) (st : PlatformState)
    (it : ItemIssueType) (hclass : getItemIssueType body = some it)
    (hheads : ∀ hl ∈ (templateOf it).headlines, strContains body hl = true) :
    validateIssueTemplate body st = ⟨true, st, []⟩ := by
  have hnil : (((validatePattern
      ((templateOf it).headlines.map fun h => ⟨PatternRegex.lit h⟩) body)).filter
        fun v => !v.ok) = [] :=
    (validatePattern_filter_eq_nil_iff _ _).mpr fun p hp => by
      obtain ⟨hl, hhl, rfl⟩ := List.mem_map.mp hp
      simp [regexTest, hheads hl hhl]
  simp only [validateIssueTemplate, hclass, hnil]
  rfl

/-- When classification succeeds but a required checkbox pattern fails, the
checkbox step posts the require-checkboxes message and fails. -/
theorem validateIssueCheckboxes_fails (body : String) (st : PlatformState)
    (it : ItemIssueType) (cb : PatternRegex) (hclass : getItemIssueType body = some it)
    (hcbmem : cb ∈ (templateOf it).checkboxes) (hcbfail : regexTest cb body = false) :
    validateIssueCheckboxes body st =
      ⟨false,
       (postComment .issue (composeMessage .issue ⟨true, false, false, false⟩) st).1,
       (postComment .issue (composeMessage .issue ⟨true, false, false, false⟩) st).2⟩ := by
  have hpos : 0 < (((validatePattern
      ((templateOf it).checkboxes.map fun c => ⟨c⟩) body)).filter
        fun v => !v.ok).length :=
    (validatePattern_filter_pos_iff _ _).mpr
      ⟨⟨cb⟩, List.mem_map.mpr ⟨cb, hcbmem, rfl⟩, hcbfail⟩
  simp only [validateIssueCheckboxes, hclass, hpos, if_true]

/-- When every required checkbox pattern passes, the checkbox step passes
without writing. -/
theorem validateIssueCheckboxes_passes (body : String) (st : PlatformState)
    (it : ItemIssueType) (hclass : getItemIssueType body = some it)
    (hcbs : ∀ cb ∈ (templateOf it).checkboxes, regexTest cb body = true) :
    validateIssueCheckboxes body st = ⟨true, st, []⟩ := by
  have hnil : (((validatePattern
      ((templateOf it).checkboxes.map fun c => ⟨c⟩) body)).filter
        fun v => !v.ok) = [] :=
    (validatePattern_filter_eq_nil_iff _ _).mpr fun p hp => by
      obtain ⟨cb, hcb, rfl⟩ := List.mem_map.mp hp
      exact hcbs cb hcb
  simp only [validateIssueCheckboxes, hclass, hnil]
  rfl

/-- When classification fails, the issue chain posts the require-template
message and stops. -/
theorem runIssue_undetermined (body : String) (st : PlatformState)
    (h : getItemIssueType body = none) :
    runIssue body st =
      ⟨.success,
       (postComment .issue (composeMessage .issue ⟨false, true, false, false⟩) st).2,
       (postComment .issue (composeMessage .issue ⟨false, true, false, false⟩) st).1⟩ := by
  unfold runIssue
  rw [validateIssueTemplate_undetermined body st h]
  rfl

/-- When classification succeeds but a required headline pattern fails, the
issue chain posts the require-template message and stops. -/
theorem runIssue_headline_missing (body : String) (st : PlatformState)
    (it : ItemIssueType) (hl : String) (hclass : getItemIssueType body = some it)
    (hmem : hl ∈ (templateOf it).headlines) (hfail : strContains body hl = false) :
    runIssue body st =
      ⟨.success,
       (postComment .issue (composeMessage .issue ⟨false, true, false, false⟩) st).2,
       (postComment .issue (composeMessage .issue ⟨false, true, false, false⟩) st).1⟩ := by
  unfold runIssue
  rw [validateIssueTemplate_headline_missing body st it hl hclass hmem hfail]
  rfl

/-- When the headlines pass but a required checkbox pattern fails, the issue
chain posts the require-checkboxes message and stops. -/
theorem runIssue_checkbox_missing (body : String) (st : PlatformState)
    (it : ItemIssueType) (cb : PatternRegex) (hclass : getItemIssueType body = some it)
    (hheads : ∀ hl ∈ (templateOf it).headlines, strContains body hl = true)
    (hcbmem : cb ∈ (templateOf it).checkboxes) (hcbfail : regexTest cb body = false) :
    runIssue body st =
      ⟨.success,
       (postComment .issue (composeMessage .issue ⟨true, false, false, false⟩) st).2,
       (postComment .issue (composeMessage .issue ⟨true, false, false, false⟩) st).1⟩ := by
  unfold runIssue
  rw [validateIssueTemplate_passes body st it hclass hheads]
  simp only [validateIssueCheckboxes_fails body st it cb hclass hcbmem hcbfail]
  simp

/-- When headlines and checkboxes all pass, the issue chain posts the success
message with the subtype-dependent extra paragraphs. -/
theorem runIssue_success (body : String) (st : PlatformState)
    (it : ItemIssueType) (hclass : getItemIssueType body = some it)
    (hheads : ∀ hl ∈ (templateOf it).headlines, strContains body hl = true)
    (hcbs : ∀ cb ∈ (templateOf it).checkboxes, regexTest cb body = true) :
    runIssue body st =
      ⟨.success,
       (postComment .issue (composeMessage .issue
         ⟨false, false, it == ItemIssueType.bug, it == ItemIssueType.feature⟩) st).2,
       (postComment .issue (composeMessage .issue
         ⟨false, false, it == ItemIssueType.bug, it == ItemIssueType.feature⟩) st).1⟩ := by
  unfold runIssue
  rw [validateIssueTemplate_passes body st it hclass hheads]
  simp only [validateIssueCheckboxes_passes body st it hclass hcbs]
  rw [hclass]
  simp

/-- C5: for an issue event whose subtype is undetermined, or whose classified
subtype is missing a required headline, the single posted message is the
require-template (missing template) response — the checkbox check is never
reached, and no placeholder check exists to reach. -/
theorem missing_template_response (p : Payload) (st : PlatformState) (body : String)
    (ha : (["opened", "reopened", "edited"].contains p.action) = true)
    (hi : p.issue.isSome = true) (hs : p.sender = true)
    (hb : (getItemBody p).getD "" = body)
    (h : getItemIssueType body = none ∨
      ∃ it hl, getItemIssueType body = some it ∧ hl ∈ (templateOf it).headlines ∧
        strContains body hl = false) :
    (main p st).outcome = .success ∧
    (main p st).writes.map writeBody = [composeMessage .issue ⟨false, true, false, false⟩] := by
  rw [main_eq_runIssue p st ha hi hs, hb]
  rcases h with h | ⟨it, hl, hclass, hmem, hfail⟩
  · rw [runIssue_undetermined body st h]
    exact ⟨rfl, postComment_writes _ _ _⟩
  · rw [runIssue_headline_missing body st it hl hclass hmem hfail]
    exact ⟨rfl, postComment_writes _ _ _⟩

/-- C5 witness: the unclassifiable body `"random text"` gets the missing
template response. -/
theorem missing_template_response_witness :
    (main ⟨"opened", some ⟨some "random text"⟩, none, true⟩ emptyState).outcome = .success ∧
    (main ⟨"opened", some ⟨some "random text"⟩, none, true⟩ emptyState).writes.map writeBody =
      [composeMessage .issue ⟨false, true, false, false⟩] :=
  missing_template_response ⟨"opened", some ⟨some "random text"⟩, none, true⟩ emptyState
    "random text" (by decide) rfl rfl rfl (Or.inl (by decide))

/-- C6: for an issue event with every required headline present but some
required checkbox pattern failing, the single posted message is the
require-checkboxes response, and that response contains the security
disclosure reminder. -/
theorem checkboxes_incomplete_response (p : Payload) (st : PlatformState) (body : String)
    (it : ItemIssueType) (cb : PatternRegex)
    (ha : (["opened", "reopened", "edited"].contains p.action) = true)
    (hi : p.issue.isSome = true) (hs : p.sender = true)
    (hb : (getItemBody p).getD "" = body)
    (hclass : getItemIssueType body = some it)
    (hheads : ∀ hl ∈ (templateOf it).headlines, strContains body hl = true)
    (hcbmem : cb ∈ (templateOf it).checkboxes) (hcbfail : regexTest cb body = false) :
    (main p st).outcome = .success ∧
    (main p st).writes.map writeBody = [composeMessage .issue ⟨true, false, false, false⟩] ∧
    strContains (composeMessage .issue ⟨true, false, false, false⟩)
      "Remember that security vulnerability must only be reported confidentially" = true := by
  rw [main_eq_runIssue p st ha hi hs, hb]
  rw [runIssue_checkbox_missing body st it cb hclass hheads hcbmem hcbfail]
  exact ⟨rfl, postComment_writes _ _ _, by decide⟩

/-- C6 witness: a bug-classified body with all six headlines and no checked
checkbox gets the require-checkboxes response with the security reminder. -/
theorem checkboxes_incomplete_response_witness :
    (main ⟨"opened", some ⟨some uncheckedBugBody⟩, none, true⟩ emptyState).outcome = .success ∧
    (main ⟨"opened", some ⟨some uncheckedBugBody⟩, none, true⟩ emptyState).writes.map writeBody =
      [composeMessage .issue ⟨true, false, false, false⟩] ∧
    strContains (composeMessage .issue ⟨true, false, false, false⟩)
      "Remember that security vulnerability must only be reported confidentially" = true :=
  checkboxes_incomplete_response ⟨"opened", some ⟨some uncheckedBugBody⟩, none, true⟩
    emptyState uncheckedBugBody .bug (.checkboxDone " I am not disclosing a")
    (by decide) rfl rfl rfl (by decide) (by decide) (by decide) (by decide)

/-- C10: an issue event with a relevant action and a sender but no (or an
empty) issue body does not fail: the body defaults to the empty string,
classification is undetermined, and the missing-template comment is still
posted. -/
theorem empty_body_still_posts (p : Payload) (st : PlatformState) (ip : ItemPayload)
    (ha : (["opened", "reopened", "edited"].contains p.action) = true)
    (hi : p.issue = some ip) (hb : ip.body = none ∨ ip.body = some "")
    (hpr : p.pull_request = none) (hs : p.sender = true) :
    (main p st).outcome = .success ∧
    (getItemBody p).getD "" = "" ∧
    getItemIssueType "" = none ∧
    (main p st).writes.map writeBody = [composeMessage .issue ⟨false, true, false, false⟩] := by
  have hbody : getItemBody p = none := by
    unfold getItemBody truthyBody
    rw [hi, hpr]
    rcases hb with h | h <;> simp [h]
  have hclass : getItemIssueType "" = none := by decide
  have hmain := missing_template_response p st "" ha (by rw [hi]; rfl) hs
    (by rw [hbody]; rfl) (Or.inl hclass)
  exact ⟨hmain.1, by rw [hbody]; rfl, hclass, hmain.2⟩

/-- C10 witness: an issue payload with a missing body gets the missing
template response. -/
theorem empty_body_still_posts_witness :
    (main ⟨"edited", some ⟨none⟩, none, true⟩ emptyState).outcome = .success ∧
    (getItemBody ⟨"edited", some ⟨none⟩, none, true⟩).getD "" = "" ∧
    getItemIssueType "" = none ∧
    (main ⟨"edited", some ⟨none⟩, none, true⟩ emptyState).writes.map writeBody =
      [composeMessage .issue ⟨false, true, false, false⟩] :=
  empty_body_still_posts ⟨"edited", some ⟨none⟩, none, true⟩ emptyState ⟨none⟩
    (by decide) rfl (Or.inl rfl) rfl rfl

/-- C1 counterexample: a body that passes the headline and checkbox checks
and still contains `FILL_THIS_OUT` receives the success response (the bug
success message, carrying no ❌ violation notice) — not a "fields incomplete"
response.  `template.common.placeholder` is defined but never consulted: no
placeholder check exists in `main`'s chain. -/
theorem placeholder_ignored_cex :
    strContains filledBugBodyWithPlaceholder templateCommonPlaceholder = true ∧
    (templateBug.headlines.all fun hl => strContains filledBugBodyWithPlaceholder hl) = true ∧
    (templateBug.checkboxes.all fun cb => regexTest cb filledBugBodyWithPlaceholder) = true ∧
    (main ⟨"opened", some ⟨some filledBugBodyWithPlaceholder⟩, none, true⟩ emptyState).writes =
      [WriteOp.createIssueComment (composeMessage .issue ⟨false, false, true, false⟩)] ∧
    strContains (composeMessage .issue ⟨false, false, true, false⟩) "❌" = false := by
  refine ⟨by decide, by decide, by decide, ?_, by decide⟩
  decide

/-- C1 amended: the code performs no placeholder check.  For every issue
event whose body is classified and passes the headline and checkbox checks,
the single posted message is the success response — whether or not the body
contains `FILL_THIS_OUT`. -/
theorem placeholder_never_checked (p : Payload) (st : PlatformState) (body : String)
    (it : ItemIssueType)
    (ha : (["opened", "reopened", "edited"].contains p.action) = true)
    (hi : p.issue.isSome = true) (hs : p.sender = true)
    (hb : (getItemBody p).getD "" = body)
    (hclass : getItemIssueType body = some it)
    (hheads : ∀ hl ∈ (templateOf it).headlines, strContains body hl = true)
    (hcbs : ∀ cb ∈ (templateOf it).checkboxes, regexTest cb body = true) :
    (main p st).outcome = .success ∧
    (main p st).writes.map writeBody =
      [composeMessage .issue ⟨false, false, it == ItemIssueType.bug,
        it == ItemIssueType.feature⟩] := by
  rw [main_eq_runIssue p st ha hi hs, hb]
  rw [runIssue_success body st it hclass hheads hcbs]
  exact ⟨rfl, postComment_writes _ _ _⟩

/-- C1 amended witness: the filled bug body that still contains the
placeholder token gets the success response. -/
theorem placeholder_never_checked_witness :
    (main ⟨"opened", some ⟨some filledBugBodyWithPlaceholder⟩, none, true⟩ emptyState).outcome
      = .success ∧
    (main ⟨"opened", some ⟨some filledBugBodyWithPlaceholder⟩, none, true⟩ emptyState).writes.map
      writeBody =
      [composeMessage .issue ⟨false, false, ItemIssueType.bug == ItemIssueType.bug,
        ItemIssueType.bug == ItemIssueType.feature⟩] :=
  placeholder_never_checked ⟨"opened", some ⟨some filledBugBodyWithPlaceholder⟩, none, true⟩
    emptyState filledBugBodyWithPlaceholder .bug (by decide) rfl rfl rfl (by decide)
    (by decide) (by decide)

/-- C2 counterexample: a pull-request event with action `opened` and a sender
is accepted by `validateEvent`, but `main` validates nothing and posts
nothing — the whole validation block is guarded by
`itemType == ItemType.issue`. -/
theorem pr_not_validated_cex :
    main ⟨"opened", none, some ⟨some "Changes proposed."⟩, true⟩ emptyState =
      ⟨.success, [], emptyState⟩ := by
  decide

/-- C2 amended: only issues are validated.  For every pull-request event with
a relevant action and a sender, the invocation performs zero platform writes
(no validation, no feedback comment) and completes successfully. -/
theorem pr_not_validated (p : Payload) (st : PlatformState)
    (ha : (["opened", "reopened", "edited"].contains p.action) = true)
    (hi : p.issue = none) (hpr : p.pull_request.isSome = true) (hs : p.sender = true) :
    main p st = ⟨.success, [], st⟩ := by
  unfold main validateEvent itemTypeOf
  rw [ha]
  simp [hi, hpr, hs]

/-- C2 amended witness: a pull-request payload with action `opened` yields a
successful run with zero writes. -/
theorem pr_not_validated_witness :
    main ⟨"opened", none, some ⟨some "Changes proposed."⟩, true⟩ emptyState =
      ⟨.success, [], emptyState⟩ :=
  pr_not_validated ⟨"opened", none, some ⟨some "Changes proposed."⟩, true⟩ emptyState
    (by decide) rfl rfl rfl

/-- C7 counterexample: on a body whose leading text is not a headline but
which contains the bug opening headline later on, the source classifier
returns bug while the spec's leading-text contract returns undetermined — the
classifier searches the whole body, not the leading text. -/
theorem classifier_not_leading_cex :
    getItemIssueType "Intro paragraph.\n### New Issue Checklist" = some ItemIssueType.bug ∧
    specLeadingClassifier "Intro paragraph.\n### New Issue Checklist" = none ∧
    getItemIssueType "Intro paragraph.\n### New Issue Checklist" ≠
      specLeadingClassifier "Intro paragraph.\n### New Issue Checklist" := by
  refine ⟨by decide, by decide, by decide⟩

/-- C7 amended: the classifier is a pure function of the body returning the
subtype whose first required headline occurs anywhere in the body (substring
inclusion, not leading text), undetermined when neither occurs; when both the
bug and the feature opening headlines occur, bug (first declared) wins. -/
theorem classifier_characterization (body : String) :
    (getItemIssueType body = some ItemIssueType.bug ↔
      strContains body templateBug.headlines[0]! = true) ∧
    (getItemIssueType body = some ItemIssueType.feature ↔
      (strContains body templateBug.headlines[0]! = false ∧
       strContains body templateFeature.headlines[0]! = true)) ∧
    (getItemIssueType body = none ↔
      (strContains body templateBug.headlines[0]! = false ∧
       strContains body templateFeature.headlines[0]! = false)) := by
  unfold getItemIssueType
  cases hb : strContains body templateBug.headlines[0]! <;>
    cases hf : strContains body templateFeature.headlines[0]! <;> simp

/-- C8 counterexample: the composed success message does not end with the
identity marker — the marker is its leading element instead (the composer
prepends `messageIdMetaTag` before the greeting). -/
theorem marker_not_trailing_cex :
    messageIdMetaTag.data.isSuffixOf
      (composeMessage .issue ⟨false, false, false, false⟩).data = false ∧
    messageIdMetaTag.data.isPrefixOf
      (composeMessage .issue ⟨false, false, false, false⟩).data = true := by
  refine ⟨by decide, by decide⟩

/-- C8 amended: every comment body the composer produces begins with the
hidden HTML-comment-style identity marker as its leading element, before the
greeting, the conditional notice paragraphs, and the disclaimer paragraph. -/
theorem marker_leading (t : ItemType) (flags : MessageFlags) :
    messageIdMetaTag.data.isPrefixOf (composeMessage t flags).data = true := by
  obtain ⟨cb, tp, sp, ef⟩ := flags
  cases t <;> cases cb <;> cases tp <;> cases sp <;> cases ef <;> decide

end ParseIssueBot
